import Mathlib

/-!
Shallow embedding of the NetBox Ansible wrapper modules
(`netbox_contact`, `netbox_data_source`, `netbox_journal_entry`,
`netbox_rack_reservation`) and of the argument-validation / reconciliation
engine they delegate to.

The four wrapper modules under `src/plugins/modules/` declare argument
schemas (`argument_spec`, `required_if`) and hand them to
`NetboxAnsibleModule`; the validation engine and the reconciliation engine
(`NetboxAnsibleModule`, `NETBOX_ARG_SPEC`, `Netbox*Module.run`) live in
`module_utils`, which is not part of the sources at hand, so those parts
are modelled from the specification.
-/

/-- Raw values carried by a DesiredSpec field.  Strings, integers and
booleans mirror the scalar suboptions; `strList` stands for list-typed
suboptions such as `tags` (raw references/names); `mapping` stands for
dict-typed suboptions such as `custom_fields` and `parameters`. -/
inductive Value where
  | str : String → Value
  | int : Int → Value
  | bool : Bool → Value
  | strList : List String → Value
  | mapping : List (String × String) → Value
deriving DecidableEq, Repr

/-- A DesiredSpec: the `data` mapping actually supplied by the caller,
field name to raw value. -/
abbrev DesiredSpec := List (String × Value)

/-- One suboption declaration inside a module's `data=dict(options=...)`:
the `required` flag, the declared `type`, and the optional `choices`
list, exactly as written in the source. -/
structure OptSpec where
  required : Bool
  typ : String
  choices : Option (List String) := none
deriving DecidableEq, Repr

/-- The declaration of the top-level `state` option: `required` flag,
`default`, and `choices`. -/
structure StateSpec where
  required : Bool
  default : Option String
  choices : List String
deriving DecidableEq, Repr

/-- One `required_if` entry `(key, value, requirements, one_of)`.  The
three-element tuples in the sources have `oneOf = false`; the journal
entry module writes the four-element form with `True`. -/
structure RequiredIf where
  key : String
  val : String
  reqs : List String
  oneOf : Bool
deriving DecidableEq, Repr

/-- Everything a wrapper module passes to the validation engine: the
`data` suboptions, the (possibly overridden) `state` declaration, and the
`required_if` list. -/
structure ModuleSchema where
  dataOptions : List (String × OptSpec)
  stateSpec : StateSpec
  requiredIf : List RequiredIf
  supportsCheckMode : Bool
deriving DecidableEq, Repr

/-- Modelled from the spec: resolution of the requested state by the
argument-parsing engine (not under src/).  A supplied state must be one
of the declared `choices`; an omitted state takes the declared default.
`none` means a fatal validation error. -/
def resolveState (s : StateSpec) (arg : Option String) : Option String :=
  match arg with
  | some v => if s.choices.contains v then some v else none
  | none => s.default

/-- Modelled from the spec: one `required_if` entry is satisfied when it
does not fire (its key/value pair does not match the resolved state) or,
firing, when all of its requirements are present in the data mapping —
at least one of them for the four-element `one_of` form, as declared in
the journal entry module's source. -/
def requiredIfOK (ri : RequiredIf) (st : String) (data : DesiredSpec) : Bool :=
  if ri.key == "state" && ri.val == st then
    if ri.oneOf then ri.reqs.any (fun r => (data.lookup r).isSome)
    else ri.reqs.all (fun r => (data.lookup r).isSome)
  else true

/-- Modelled from the spec: the argument-validation engine
(`NetboxAnsibleModule`, not under src/) applied to the `data` mapping
once the state is resolved.  It rejects suboptions that are not declared,
suboptions declared `required=True` but absent, violated `required_if`
entries, and values outside a declared `choices` list — all fatal before
any network call. -/
def validCore (schema : ModuleSchema) (st : String) (data : DesiredSpec) : Bool :=
  data.all (fun p => (schema.dataOptions.lookup p.1).isSome)
  && schema.dataOptions.all (fun p => !p.2.required || (data.lookup p.1).isSome)
  && schema.requiredIf.all (fun ri => requiredIfOK ri st data)
  && data.all (fun p =>
      match schema.dataOptions.lookup p.1 with
      | some o =>
        match o.choices with
        | some cs => (match p.2 with | .str s => cs.contains s | _ => false)
        | none => true
      | none => true)

/-- Modelled from the spec: full argument validation of one invocation —
state resolution followed by the data-mapping checks; `false` is the
fatal ValidationError surfaced before any network call. -/
def validateArgs (schema : ModuleSchema) (stateArg : Option String) (data : DesiredSpec) : Bool :=
  match resolveState schema.stateSpec stateArg with
  | none => false
  | some st => validCore schema st data

/-- Modelled from the spec: the `state` entry of the shared
`NETBOX_ARG_SPEC` constant (module_utils, not under src/): optional,
defaulting to "present", allowing "present" and "absent". -/
def NETBOX_STATE_SPEC : StateSpec :=
  { required := false, default := some "present", choices := ["present", "absent"] }

/-- The `data` suboptions of `netbox_contact.main` (src lines 153-161). -/
def contact_data_options : List (String × OptSpec) :=
  [ ("name", { required := true, typ := "str" }),
    ("title", { required := false, typ := "str" }),
    ("phone", { required := false, typ := "str" }),
    ("email", { required := false, typ := "str" }),
    ("address", { required := false, typ := "str" }),
    ("comments", { required := false, typ := "str" }),
    ("contact_group", { required := false, typ := "raw" }),
    ("tags", { required := false, typ := "list" }),
    ("custom_fields", { required := false, typ := "dict" }) ]

/-- The `required_if` list of `netbox_contact.main` (src line 167). -/
def contact_required_if : List RequiredIf :=
  [ { key := "state", val := "present", reqs := ["name"], oneOf := false },
    { key := "state", val := "absent", reqs := ["name"], oneOf := false } ]

/-- The schema `netbox_contact.main` hands to the validation engine. -/
def contact_schema : ModuleSchema :=
  { dataOptions := contact_data_options,
    stateSpec := NETBOX_STATE_SPEC,
    requiredIf := contact_required_if,
    supportsCheckMode := true }

/-- The `data` suboptions of `netbox_data_source.main` (src lines
157-169).  Note: no `tags` suboption is declared. -/
def data_source_data_options : List (String × OptSpec) :=
  [ ("name", { required := true, typ := "str" }),
    ("type", { required := true, typ := "str", choices := some ["local", "git", "amazon-s3"] }),
    ("source_url", { required := true, typ := "str" }),
    ("enabled", { required := false, typ := "bool" }),
    ("description", { required := false, typ := "str" }),
    ("comments", { required := false, typ := "str" }),
    ("parameters", { required := false, typ := "dict" }),
    ("ignore_rules", { required := false, typ := "str" }),
    ("custom_fields", { required := false, typ := "dict" }) ]

/-- The `required_if` list of `netbox_data_source.main` (src line 174). -/
def data_source_required_if : List RequiredIf :=
  [ { key := "state", val := "present", reqs := ["name", "type", "source_url"], oneOf := false },
    { key := "state", val := "absent", reqs := ["name"], oneOf := false } ]

/-- The schema `netbox_data_source.main` hands to the validation engine. -/
def data_source_schema : ModuleSchema :=
  { dataOptions := data_source_data_options,
    stateSpec := NETBOX_STATE_SPEC,
    requiredIf := data_source_required_if,
    supportsCheckMode := true }

/-- The `data` suboptions of `netbox_journal_entry.main` (src lines
198-204).  Every suboption is declared `required=False`. -/
def journal_entry_data_options : List (String × OptSpec) :=
  [ ("created_by", { required := false, typ := "int" }),
    ("kind", { required := false, typ := "raw" }),
    ("assigned_object_type", { required := false, typ := "str" }),
    ("assigned_object_id", { required := false, typ := "str" }),
    ("comments", { required := false, typ := "str" }),
    ("tags", { required := false, typ := "list" }),
    ("custom_fields", { required := false, typ := "dict" }) ]

/-- The overriding `state` entry written by `netbox_journal_entry.main`
(src line 191): optional, default "new", sole choice "new". -/
def journal_entry_state_spec : StateSpec :=
  { required := false, default := some "new", choices := ["new"] }

/-- The `required_if` list of `netbox_journal_entry.main` (src lines
210-217): the four-element form with `one_of = True`. -/
def journal_entry_required_if : List RequiredIf :=
  [ { key := "state", val := "new",
      reqs := ["comments", "assigned_object_type", "assigned_object_id"], oneOf := true } ]

/-- The schema `netbox_journal_entry.main` hands to the validation engine. -/
def journal_entry_schema : ModuleSchema :=
  { dataOptions := journal_entry_data_options,
    stateSpec := journal_entry_state_spec,
    requiredIf := journal_entry_required_if,
    supportsCheckMode := true }

/-- The `data` suboptions of `netbox_rack_reservation.main` (src lines
141-149).  `units` is declared `required=False`. -/
def rack_reservation_data_options : List (String × OptSpec) :=
  [ ("rack", { required := true, typ := "str" }),
    ("units", { required := false, typ := "list" }),
    ("user", { required := false, typ := "raw" }),
    ("tenant", { required := false, typ := "raw" }),
    ("location", { required := false, typ := "raw" }),
    ("description", { required := true, typ := "str" }),
    ("comments", { required := false, typ := "str" }),
    ("tags", { required := false, typ := "list" }),
    ("custom_fields", { required := false, typ := "dict" }) ]

/-- The `required_if` list of `netbox_rack_reservation.main` (src lines
155-158). -/
def rack_reservation_required_if : List RequiredIf :=
  [ { key := "state", val := "present", reqs := ["rack", "description"], oneOf := false },
    { key := "state", val := "absent", reqs := ["rack", "description"], oneOf := false } ]

/-- The schema `netbox_rack_reservation.main` hands to the validation engine. -/
def rack_reservation_schema : ModuleSchema :=
  { dataOptions := rack_reservation_data_options,
    stateSpec := NETBOX_STATE_SPEC,
    requiredIf := rack_reservation_required_if,
    supportsCheckMode := true }

/-- A RemoteObject: the server's serialized representation of an
existing record, reduced to its attribute mapping. -/
structure RemoteObject where
  attrs : List (String × Value)
deriving DecidableEq, Repr

/-- One call issued to the Remote Object Gateway. -/
inductive GatewayCall where
  | listQ : String → GatewayCall
  | createC : String → GatewayCall
  | updateC : String → GatewayCall
  | deleteC : String → GatewayCall
deriving DecidableEq, Repr

/-- Whether a gateway call is a read (list/lookup), as opposed to a
mutating create/update/delete. -/
def GatewayCall.isRead : GatewayCall → Bool
  | .listQ _ => true
  | _ => false

/-- The reconciler's decision: one of NoOp, Create, Update(diff), Delete. -/
inductive Decision where
  | noop : Decision
  | create : Decision
  | updateD : DesiredSpec → Decision
  | delete : Decision
deriving DecidableEq, Repr

/-- Modelled from the spec: the field-level diff — every field present in
the resolved DesiredSpec whose value differs from the corresponding
attribute of the existing RemoteObject; fields absent from the
DesiredSpec are excluded. -/
def diffFields (resolved : DesiredSpec) (obj : RemoteObject) : DesiredSpec :=
  resolved.filter (fun p => (obj.attrs.lookup p.1) != some p.2)

/-- Replace or append one attribute in a RemoteObject attribute mapping. -/
def setAttr (attrs : List (String × Value)) (k : String) (v : Value) : List (String × Value) :=
  if attrs.any (fun p => p.1 == k) then
    attrs.map (fun p => if p.1 == k then (k, v) else p)
  else attrs ++ [(k, v)]

/-- Apply a diff to an existing attribute mapping, key by key. -/
def mergeAttrs (attrs : List (String × Value)) (d : DesiredSpec) : List (String × Value) :=
  d.foldl (fun acc p => setAttr acc p.1 p.2) attrs

/-- Modelled from the spec: the State Reconciler's decision table over
(requested state, existence of a matching RemoteObject): absent/exists →
Delete, absent/none → NoOp, present/none → Create, present/exists →
Update on a non-empty diff else NoOp, and "new" → Create unconditionally
(existence is never consulted). -/
def decideAction (st : String) (found : Option RemoteObject) (resolved : DesiredSpec) : Decision :=
  if st == "absent" then
    match found with
    | some _ => .delete
    | none => .noop
  else if st == "new" then .create
  else
    match found with
    | none => .create
    | some obj =>
      let d := diffFields resolved obj
      if d.isEmpty then .noop else .updateD d

/-- Outcome of one run of the reconciliation engine: the `changed` flag,
the remote object after the run, and the gateway calls issued. -/
structure RunOutcome where
  changed : Bool
  remote : Option RemoteObject
  calls : List GatewayCall
deriving DecidableEq, Repr

/-- Modelled from the spec: the reconciliation engine
(`Netbox*Module.run`, not under src/).  `cur` is the remote object
matching the natural key, if any.  The lookup-by-natural-key gateway call
is skipped entirely for "new"; in check-mode the decision and `changed`
are computed exactly as in a real run but the mutating gateway call is
replaced by a no-op and the remote object is left untouched. -/
def runEngine (endpoint : String) (st : String) (data : DesiredSpec)
    (cur : Option RemoteObject) (checkMode : Bool) : RunOutcome :=
  let lookupCalls : List GatewayCall := if st == "new" then [] else [.listQ endpoint]
  let found : Option RemoteObject := if st == "new" then none else cur
  match decideAction st found data with
  | .noop => { changed := false, remote := cur, calls := lookupCalls }
  | .create =>
    if checkMode then { changed := true, remote := cur, calls := lookupCalls }
    else { changed := true, remote := some ⟨data⟩, calls := lookupCalls ++ [.createC endpoint] }
  | .updateD d =>
    if checkMode then { changed := true, remote := cur, calls := lookupCalls }
    else { changed := true,
           remote := (match cur with
                      | some o => some ⟨mergeAttrs o.attrs d⟩
                      | none => cur),
           calls := lookupCalls ++ [.updateC endpoint] }
  | .delete =>
    if checkMode then { changed := true, remote := cur, calls := lookupCalls }
    else { changed := true, remote := none, calls := lookupCalls ++ [.deleteC endpoint] }

/-- Outcome of one whole module invocation: whether validation passed,
the `changed` flag when it did, the gateway calls issued, and the remote
object after the invocation. -/
structure Invocation where
  ok : Bool
  changed : Option Bool
  calls : List GatewayCall
  remote : Option RemoteObject
deriving DecidableEq, Repr

/-- One whole invocation of a wrapper module's `main`: the module is
constructed (argument validation) first, and only when validation passes
is the resource module's `run()` invoked; a validation failure aborts
with no gateway call and the remote object untouched. -/
def invokeModule (schema : ModuleSchema) (endpoint : String) (stateArg : Option String)
    (data : DesiredSpec) (cur : Option RemoteObject) (checkMode : Bool) : Invocation :=
  match resolveState schema.stateSpec stateArg with
  | none => { ok := false, changed := none, calls := [], remote := cur }
  | some st =>
    if validCore schema st data then
      let r := runEngine endpoint st data cur checkMode
      { ok := true, changed := some r.changed, calls := r.calls, remote := r.remote }
    else { ok := false, changed := none, calls := [], remote := cur }

/-- The per-suboption `required` flags stated by the embedded
DOCUMENTATION block of `netbox_journal_entry` (src lines 33-69). -/
def journal_entry_doc_required : List (String × Bool) :=
  [ ("created_by", false),
    ("kind", false),
    ("assigned_object_id", true),
    ("assigned_object_type", true),
    ("comments", true),
    ("tags", false),
    ("custom_fields", false) ]

/-- The per-suboption `required` flags stated by the embedded
DOCUMENTATION block of `netbox_rack_reservation` (src lines 31-78). -/
def rack_reservation_doc_required : List (String × Bool) :=
  [ ("rack", true),
    ("units", true),
    ("user", false),
    ("tenant", false),
    ("location", false),
    ("description", true),
    ("comments", false),
    ("tags", false),
    ("custom_fields", false) ]

/-- An entry of a Python argument-spec dict: the fields that occur across
`NETBOX_ARG_SPEC` and the wrapper modules' additions.  The `data` entry
carries its suboptions in `options`. -/
structure SpecEntry where
  required : Bool := false
  typ : String := "str"
  default : Option String := none
  choices : Option (List String) := none
  options : Option (List (String × OptSpec)) := none
deriving DecidableEq, Repr

/-- A Python dict holding an argument spec, as an ordered association
list. -/
abbrev SpecDict := List (String × SpecEntry)

/-- Python `d[k] = v`: replace the value in place when the key exists,
append otherwise. -/
def dictSet (d : SpecDict) (k : String) (v : SpecEntry) : SpecDict :=
  if d.any (fun p => p.1 == k) then d.map (fun p => if p.1 == k then (k, v) else p)
  else d ++ [(k, v)]

/-- Python `d.update(u)`: `d[k] = v` for every pair of `u` in order. -/
def dictUpdate (d : SpecDict) (u : SpecDict) : SpecDict :=
  u.foldl (fun acc p => dictSet acc p.1 p.2) d

/-- A store of Python dict objects: addresses are allocation order, and
`next` is the next fresh address. -/
structure Store where
  mem : Nat → SpecDict
  next : Nat

/-- Allocate a fresh dict object holding `v` and return its address. -/
def Store.alloc (s : Store) (v : SpecDict) : Nat × Store :=
  (s.next, { mem := fun x => if x = s.next then v else s.mem x, next := s.next + 1 })

/-- Overwrite the dict object at address `a` in place. -/
def Store.write (s : Store) (a : Nat) (v : SpecDict) : Store :=
  { mem := fun x => if x = a then v else s.mem x, next := s.next }

/-- Modelled from the spec: the shared module-level `NETBOX_ARG_SPEC`
constant (module_utils, not under src/) — connection options plus the
`state` entry defaulting to "present" with choices present/absent. -/
def NETBOX_ARG_SPEC : SpecDict :=
  [ ("netbox_url", { required := true, typ := "str" }),
    ("netbox_token", { required := true, typ := "str" }),
    ("state", { required := false, typ := "str", default := some "present",
                choices := some ["present", "absent"] }) ]

/-- The `data` entry `netbox_contact.main` adds to its copy of the shared
spec (src lines 147-165). -/
def contact_data_entry : SpecEntry :=
  { required := true, typ := "dict", options := some contact_data_options }

/-- The `data` entry `netbox_data_source.main` adds to its copy of the
shared spec (src lines 152-172). -/
def data_source_data_entry : SpecEntry :=
  { required := true, typ := "dict", options := some data_source_data_options }

/-- The `data` entry `netbox_journal_entry.main` adds to its copy of the
shared spec (src lines 192-208). -/
def journal_entry_data_entry : SpecEntry :=
  { required := true, typ := "dict", options := some journal_entry_data_options }

/-- The `state` entry `netbox_journal_entry.main` assigns on its copy of
the shared spec (src line 191). -/
def journal_entry_state_entry : SpecEntry :=
  { required := false, typ := "str", default := some "new", choices := some ["new"] }

/-- The `data` entry `netbox_rack_reservation.main` adds to its copy of
the shared spec (src lines 135-153). -/
def rack_reservation_data_entry : SpecEntry :=
  { required := true, typ := "dict", options := some rack_reservation_data_options }

/-- The argument-spec construction of `netbox_contact.main` (src lines
146-165): `argument_spec = deepcopy(NETBOX_ARG_SPEC)` allocates a fresh
dict, then `argument_spec.update(...)` mutates only that copy.  Returns
the copy's address and the store after. -/
def contact_main_argspec (s : Store) (ga : Nat) : Nat × Store :=
  let (a, s1) := s.alloc (s.mem ga)
  let s2 := s1.write a (dictUpdate (s1.mem a) [("data", contact_data_entry)])
  (a, s2)

/-- The argument-spec construction of `netbox_data_source.main` (src
lines 151-172). -/
def data_source_main_argspec (s : Store) (ga : Nat) : Nat × Store :=
  let (a, s1) := s.alloc (s.mem ga)
  let s2 := s1.write a (dictUpdate (s1.mem a) [("data", data_source_data_entry)])
  (a, s2)

/-- The argument-spec construction of `netbox_journal_entry.main` (src
lines 190-208): deepcopy, then `argument_spec["state"] = ...` on the
copy, then `argument_spec.update(...)` on the copy. -/
def journal_entry_main_argspec (s : Store) (ga : Nat) : Nat × Store :=
  let (a, s1) := s.alloc (s.mem ga)
  let s2 := s1.write a (dictSet (s1.mem a) "state" journal_entry_state_entry)
  let s3 := s2.write a (dictUpdate (s2.mem a) [("data", journal_entry_data_entry)])
  (a, s3)

/-- The argument-spec construction of `netbox_rack_reservation.main`
(src lines 134-153). -/
def rack_reservation_main_argspec (s : Store) (ga : Nat) : Nat × Store :=
  let (a, s1) := s.alloc (s.mem ga)
  let s2 := s1.write a (dictUpdate (s1.mem a) [("data", rack_reservation_data_entry)])
  (a, s2)

/-- A one-object store holding the shared `NETBOX_ARG_SPEC` constant at
address 0, as at interpreter start-up. -/
def demoStore : Store := { mem := fun _ => NETBOX_ARG_SPEC, next := 1 }

/-- C1: false as stated — the claim says every one of the four resource
schemas accepts a `tags` field, but the data-source schema declares no
`tags` suboption, so a DesiredSpec carrying `tags` (alongside all the
required data-source fields) is rejected by its argument validation. -/
theorem claim_C1_counterexample :
    validateArgs data_source_schema (some "present")
      [("name", Value.str "DS"), ("type", Value.str "local"),
       ("source_url", Value.str "file:///opt/scripts"),
       ("tags", Value.strList ["tagA"])] = false := by decide

/-- C1 (amended): the contact, journal-entry and rack-reservation schemas
declare `tags` and accept a DesiredSpec that includes it, but the
data-source schema declares no `tags` suboption and rejects a DesiredSpec
that includes it. -/
theorem claim_C1_amended :
    (contact_data_options.lookup "tags").isSome = true ∧
    (journal_entry_data_options.lookup "tags").isSome = true ∧
    (rack_reservation_data_options.lookup "tags").isSome = true ∧
    validateArgs contact_schema (some "present")
      [("name", Value.str "Contact One"), ("tags", Value.strList ["tagA"])] = true ∧
    validateArgs journal_entry_schema (some "new")
      [("comments", Value.str "note"),
       ("assigned_object_type", Value.str "dcim.device"),
       ("assigned_object_id", Value.str "1"),
       ("tags", Value.strList ["tagA"])] = true ∧
    validateArgs rack_reservation_schema (some "present")
      [("rack", Value.str "Test rack"), ("description", Value.str "Patch panels"),
       ("tags", Value.strList ["tagA"])] = true ∧
    data_source_data_options.lookup "tags" = none := by decide

/-- C2: evaluation of the code at the failing input.  With state "new"
and a data mapping holding only `comments`, argument validation passes —
the journal-entry `required_if` entry is the four-element `one_of` form,
so any one of comments / assigned_object_type / assigned_object_id
suffices — although the module's own DOCUMENTATION block declares all
three suboptions `required: true` (and the argument spec declares them
`required=False`). -/
theorem claim_C2_eval :
    validateArgs journal_entry_schema (some "new")
      [("comments", Value.str "note")] = true ∧
    (journal_entry_schema.requiredIf.all (fun ri => ri.oneOf)) = true ∧
    journal_entry_doc_required.lookup "assigned_object_type" = some true ∧
    journal_entry_doc_required.lookup "assigned_object_id" = some true ∧
    journal_entry_doc_required.lookup "comments" = some true ∧
    journal_entry_data_options.lookup "assigned_object_type"
      = some { required := false, typ := "str" } ∧
    journal_entry_data_options.lookup "assigned_object_id"
      = some { required := false, typ := "str" } := by decide

/-- C3: false as stated — with requested state "absent", a DesiredSpec
containing only `name` does not pass the data-source argument validation:
`type` and `source_url` are declared `required=True` unconditionally in
the suboption schema, so they are demanded for "absent" too. -/
theorem claim_C3_counterexample :
    validateArgs data_source_schema (some "absent")
      [("name", Value.str "DS")] = false := by decide

/-- C10: the rack-reservation argument spec declares `units` as
`required=False`, so a DesiredSpec with only `rack` and `description`
passes validation for both "present" and "absent", even though the
module's embedded DOCUMENTATION declares `units` as `required: true`. -/
theorem claim_C10_units_optional :
    rack_reservation_data_options.lookup "units"
      = some { required := false, typ := "list" } ∧
    rack_reservation_doc_required.lookup "units" = some true ∧
    validateArgs rack_reservation_schema (some "present")
      [("rack", Value.str "Test rack"), ("description", Value.str "Patch panels")] = true ∧
    validateArgs rack_reservation_schema (some "absent")
      [("rack", Value.str "Test rack"), ("description", Value.str "Patch panels")] = true := by
  decide

/-- C3 (amended): with requested state "absent", a DesiredSpec lacking
`type` or lacking `source_url` always fails the data-source argument
validation — both are unconditionally required suboptions — while a
DesiredSpec supplying name, type and source_url passes for "absent". -/
theorem claim_C3_amended :
    (∀ data : DesiredSpec,
      (data.lookup "type" = none ∨ data.lookup "source_url" = none) →
      validateArgs data_source_schema (some "absent") data = false) ∧
    validateArgs data_source_schema (some "absent")
      [("name", Value.str "DS"), ("type", Value.str "local"),
       ("source_url", Value.str "https://x")] = true := by
  constructor
  · intro data h
    simp only [validateArgs, resolveState, data_source_schema, NETBOX_STATE_SPEC, validCore,
      data_source_data_options, List.all_cons, List.all_nil, List.contains]
    rcases h with h | h <;> simp [h]
  · decide

/-- Witness for C3 (amended): the DesiredSpec containing only `name` has
no `type` field, and the theorem applied to it yields the validation
failure. -/
theorem claim_C3_witness :
    (([("name", Value.str "DS")] : DesiredSpec).lookup "type" = none ∨
     ([("name", Value.str "DS")] : DesiredSpec).lookup "source_url" = none) ∧
    validateArgs data_source_schema (some "absent")
      [("name", Value.str "DS")] = false := by
  refine ⟨Or.inl (by decide), ?_⟩
  exact claim_C3_amended.1 [("name", Value.str "DS")] (Or.inl (by decide))

/-- C4: the journal-entry entry point accepts exactly one requested
state.  Any supplied state other than "new" fails argument validation
whatever the data mapping; an omitted state resolves to the default
"new", under which a well-formed data mapping validates. -/
theorem claim_C4_only_new (v : String) (data : DesiredSpec) :
    (v ≠ "new" → validateArgs journal_entry_schema (some v) data = false) ∧
    resolveState journal_entry_schema.stateSpec none = some "new" ∧
    validateArgs journal_entry_schema none
      [("comments", Value.str "appended note")] = true := by
  refine ⟨?_, by decide, by decide⟩
  intro hv
  have hb : ("new" == v) = false := by
    simp only [beq_eq_false_iff_ne]
    exact fun h => hv h.symm
  simp [validateArgs, resolveState, journal_entry_schema, journal_entry_state_spec,
    List.contains, hb, hv]

/-- Witness for C4: state "present" is not "new" and is rejected by the
journal-entry validation, while an omitted state validates. -/
theorem claim_C4_witness :
    ("present" : String) ≠ "new" ∧
    validateArgs journal_entry_schema (some "present") [] = false ∧
    validateArgs journal_entry_schema none
      [("comments", Value.str "appended note")] = true := by
  refine ⟨by decide, ?_, ?_⟩
  · exact (claim_C4_only_new "present" []).1 (by decide)
  · exact (claim_C4_only_new "present" []).2.2

/-- C5: with name and source_url supplied, the data-source argument
validation passes exactly when the supplied `type` is one of "local",
"git", "amazon-s3"; for any other type the invocation fails validation
and issues no gateway call at all. -/
theorem claim_C5_type_choices (t : String) (cur : Option RemoteObject) (cm : Bool) :
    (validateArgs data_source_schema (some "present")
        [("name", Value.str "DS"), ("type", Value.str t),
         ("source_url", Value.str "https://x")] = true
      ↔ (t = "local" ∨ t = "git" ∨ t = "amazon-s3")) ∧
    (¬(t = "local" ∨ t = "git" ∨ t = "amazon-s3") →
      (invokeModule data_source_schema "core/data-sources" (some "present")
        [("name", Value.str "DS"), ("type", Value.str t),
         ("source_url", Value.str "https://x")] cur cm).calls = [] ∧
      (invokeModule data_source_schema "core/data-sources" (some "present")
        [("name", Value.str "DS"), ("type", Value.str t),
         ("source_url", Value.str "https://x")] cur cm).ok = false) := by
  constructor
  · simp [validateArgs, resolveState, data_source_schema, NETBOX_STATE_SPEC, validCore,
      data_source_data_options, data_source_required_if, requiredIfOK,
      List.contains, List.lookup]
  · intro h
    simp [invokeModule, resolveState, data_source_schema, NETBOX_STATE_SPEC, validCore,
      data_source_data_options, data_source_required_if, requiredIfOK,
      List.contains, List.lookup, h]

/-- Witness for C5: type "ftp" is outside the choices and leads to zero
gateway calls, while type "git" passes validation. -/
theorem claim_C5_witness :
    ¬(("ftp" : String) = "local" ∨ ("ftp" : String) = "git" ∨ ("ftp" : String) = "amazon-s3") ∧
    (invokeModule data_source_schema "core/data-sources" (some "present")
      [("name", Value.str "DS"), ("type", Value.str "ftp"),
       ("source_url", Value.str "https://x")] none false).calls = [] ∧
    validateArgs data_source_schema (some "present")
      [("name", Value.str "DS"), ("type", Value.str "git"),
       ("source_url", Value.str "https://x")] = true := by
  refine ⟨by decide, ?_, ?_⟩
  · exact ((claim_C5_type_choices "ftp" none false).2 (by decide)).1
  · exact (claim_C5_type_choices "git" none false).1.mpr (by decide)

/-- C6: for both requested states "present" and "absent", a DesiredSpec
missing `rack` or missing `description` fails the rack-reservation
argument validation. -/
theorem claim_C6_rack_desc (st : String) (data : DesiredSpec)
    (hst : st = "present" ∨ st = "absent")
    (hmiss : data.lookup "rack" = none ∨ data.lookup "description" = none) :
    validateArgs rack_reservation_schema (some st) data = false := by
  rcases hst with h | h <;> subst h <;>
    simp only [validateArgs, resolveState, rack_reservation_schema, NETBOX_STATE_SPEC,
      validCore, rack_reservation_data_options, List.contains, List.any_cons, List.any_nil,
      List.all_cons, List.all_nil] <;>
    rcases hmiss with h | h <;> simp [h]

/-- Witness for C6: state "absent" with a data mapping holding only
`rack` (no `description`) is rejected. -/
theorem claim_C6_witness :
    (("absent" : String) = "present" ∨ ("absent" : String) = "absent") ∧
    (([("rack", Value.str "Test rack")] : DesiredSpec).lookup "rack" = none ∨
     ([("rack", Value.str "Test rack")] : DesiredSpec).lookup "description" = none) ∧
    validateArgs rack_reservation_schema (some "absent")
      [("rack", Value.str "Test rack")] = false := by
  refine ⟨Or.inr rfl, Or.inr (by decide), ?_⟩
  exact claim_C6_rack_desc "absent" _ (Or.inr rfl) (Or.inr (by decide))

/-- C7: for every schema, endpoint, state argument, data mapping,
current remote state and mode, a failing argument validation aborts the
invocation before any gateway call: the call trace is empty and the
remote object is untouched. -/
theorem claim_C7_validation_before_gateway (schema : ModuleSchema) (ep : String)
    (stateArg : Option String) (data : DesiredSpec) (cur : Option RemoteObject) (cm : Bool)
    (h : validateArgs schema stateArg data = false) :
    (invokeModule schema ep stateArg data cur cm).calls = [] ∧
    (invokeModule schema ep stateArg data cur cm).remote = cur := by
  unfold validateArgs at h
  unfold invokeModule
  cases hres : resolveState schema.stateSpec stateArg with
  | none => exact ⟨rfl, rfl⟩
  | some st =>
    rw [hres] at h
    simp only [] at h
    simp [h]

/-- Witness for C7: the contact entry point with an empty data mapping
(missing the required `name`) fails validation and issues no gateway
call. -/
theorem claim_C7_witness :
    validateArgs contact_schema (some "present") [] = false ∧
    (invokeModule contact_schema "tenancy/contacts" (some "present") [] none false).calls = [] ∧
    (invokeModule contact_schema "tenancy/contacts" (some "present") [] none false).remote
      = none := by
  refine ⟨by decide, ?_, ?_⟩
  · exact (claim_C7_validation_before_gateway contact_schema "tenancy/contacts"
      (some "present") [] none false (by decide)).1
  · exact (claim_C7_validation_before_gateway contact_schema "tenancy/contacts"
      (some "present") [] none false (by decide)).2

/-- C8: for every schema, endpoint, state argument, data mapping and
current remote state, the check-mode invocation yields the same
`changed` value as the real invocation, leaves the remote object exactly
as it was, and issues only read (lookup) gateway calls. -/
theorem claim_C8_check_mode_parity (schema : ModuleSchema) (ep : String)
    (stateArg : Option String) (data : DesiredSpec) (cur : Option RemoteObject) :
    (invokeModule schema ep stateArg data cur true).changed
      = (invokeModule schema ep stateArg data cur false).changed ∧
    (invokeModule schema ep stateArg data cur true).remote = cur ∧
    (invokeModule schema ep stateArg data cur true).calls.all GatewayCall.isRead = true := by
  unfold invokeModule
  cases hres : resolveState schema.stateSpec stateArg with
  | none => exact ⟨rfl, rfl, rfl⟩
  | some st =>
    by_cases hv : validCore schema st data = true
    · simp only [hv, if_true]
      unfold runEngine
      cases hnew : (st == "new")
      · simp only [hnew, Bool.false_eq_true, if_false]
        cases hd : decideAction st cur data <;> simp [hd, GatewayCall.isRead]
      · simp only [hnew, if_true]
        cases hd : decideAction st none data <;> simp [hd, GatewayCall.isRead]
    · simp [hv]

/-- C9: every wrapper module builds its argument spec on a fresh deep
copy of the shared `NETBOX_ARG_SPEC` object; after any of the four
`main` constructions the dict at the shared constant's address is
unchanged, and the journal-entry module's "new"-only `state` override
lands only on its copy while the shared constant keeps the
present/absent entry. -/
theorem claim_C9_shared_spec_frame (s : Store) (ga : Nat) (h : ga < s.next) :
    ((contact_main_argspec s ga).2.mem ga = s.mem ga ∧
     (data_source_main_argspec s ga).2.mem ga = s.mem ga ∧
     (journal_entry_main_argspec s ga).2.mem ga = s.mem ga ∧
     (rack_reservation_main_argspec s ga).2.mem ga = s.mem ga) ∧
    (s.mem ga = NETBOX_ARG_SPEC →
      ((journal_entry_main_argspec s ga).2.mem (journal_entry_main_argspec s ga).1).lookup "state"
        = some journal_entry_state_entry ∧
      NETBOX_ARG_SPEC.lookup "state"
        = some { required := false, typ := "str", default := some "present",
                 choices := some ["present", "absent"] }) := by
  have hne : ga ≠ s.next := Nat.ne_of_lt h
  constructor
  · refine ⟨?_, ?_, ?_, ?_⟩ <;>
      simp [contact_main_argspec, data_source_main_argspec, journal_entry_main_argspec,
        rack_reservation_main_argspec, Store.alloc, Store.write, hne]
  · intro hg
    refine ⟨?_, by decide⟩
    simp [journal_entry_main_argspec, Store.alloc, Store.write, hg]
    decide

/-- Witness for C9: in the one-object start-up store, the shared
constant at address 0 is unchanged by the journal-entry construction and
the copy carries the "new"-only state entry. -/
theorem claim_C9_witness :
    0 < demoStore.next ∧
    (journal_entry_main_argspec demoStore 0).2.mem 0 = demoStore.mem 0 ∧
    ((journal_entry_main_argspec demoStore 0).2.mem
        (journal_entry_main_argspec demoStore 0).1).lookup "state"
      = some journal_entry_state_entry := by
  refine ⟨by decide, ?_, ?_⟩
  · exact (claim_C9_shared_spec_frame demoStore 0 (by decide)).1.2.2.1
  · exact ((claim_C9_shared_spec_frame demoStore 0 (by decide)).2 rfl).1
